import Mathlib

/-!
# Verification of the NicoSoftware emotion-recognition pipeline

Shallow embedding of `api/src/nicoemotionrecognition/scripts/nicoemotionrecognition/
EmotionRecognition.py`.  The external collaborators (video device, face locator,
the two classifiers, robot motion, expression output, speech backend, GUI) are
modelled as per-frame observations and emitted effects; the mutable attributes of
the `EmotionRecognition` object become an explicit state record, and the per-frame
callback, `start`, `stop` and the public getters become pure functions on it.
Numeric scores and angles are modelled with rationals.
-/

set_option maxRecDepth 4000

namespace ER

/-- Ordered categorical class labels.  Modelled from the spec: the
`modelDictionary` module is not under `src/`; the order is the one documented in
the docstrings of `getCategoricalData` and `getHighestMatchingEmotion`
(Neutral, Happiness, Surprise, Sadness, Anger, Disgust, Fear, Contempt).
The triple-s spelling follows the source attribute `classsesOrder`. -/
def classsesOrder : List String :=
  ["Neutral", "Happiness", "Surprise", "Sadness", "Anger", "Disgust", "Fear",
   "Contempt"]

/-- Modelled from the spec: the dimensional model exposes the two ordered labels
arousal and valence (`modelDictionary` is not under `src/`). -/
def dimClassesOrder : List String := ["Arousal", "Valence"]

/-- `numpy.argmax` on a list of rationals: index of the first occurrence of the
maximum (0 on the empty list, which the source never hits). -/
def npArgmax : List ℚ → Nat
  | [] => 0
  | [_] => 0
  | x :: y :: xs =>
    let j := npArgmax (y :: xs)
    if (y :: xs).getD j 0 > x then j + 1 else 0

theorem npArgmax_lt : ∀ (l : List ℚ), l ≠ [] → npArgmax l < l.length
  | [_], _ => by simp [npArgmax]
  | x :: y :: xs, _ => by
    have ih := npArgmax_lt (y :: xs) (by simp)
    simp only [npArgmax]
    split
    · simpa using Nat.succ_lt_succ ih
    · simp

theorem npArgmax_ge :
    ∀ (l : List ℚ) (i : Nat), i < l.length → l.getD i 0 ≤ l.getD (npArgmax l) 0
  | [_], i, hi => by
    match i with
    | 0 => simp [npArgmax]
  | x :: y :: xs, i, hi => by
    simp only [npArgmax]
    split
    · rename_i hgt
      match i with
      | 0 =>
        simpa using le_of_lt (by simpa using hgt)
      | Nat.succ k =>
        have ih := npArgmax_ge (y :: xs) k (by simpa using Nat.lt_of_succ_lt_succ hi)
        simpa using ih
    · rename_i hle
      have hle' : (y :: xs).getD (npArgmax (y :: xs)) 0 ≤ x := le_of_not_lt hle
      match i with
      | 0 => simp
      | Nat.succ k =>
        have ih := npArgmax_ge (y :: xs) k (by simpa using Nat.lt_of_succ_lt_succ hi)
        simpa using le_trans ih hle'

/-- Python `str.lower()` on the ASCII label strings, written over the character
list so it evaluates inside the kernel. -/
def strLower (s : String) : String := ⟨s.data.map Char.toLower⟩

/-- The threshold/arg-max chain of `getHighestMatchingEmotion`, as a pure
function of the cached categorical score row (`self._categoricalRecognition[0]`
in the source; classifier rows have length 8, which the theorems hypothesise
where it matters). -/
def highestMatchingEmotion (row : List ℚ) : String :=
  if row.getD 6 0 > 15 then "fear"
  else if row.getD 4 0 > 20 then "anger"
  else if row.getD 3 0 > 15 then "sadness"
  else if row.getD 3 0 > 20 then "happiness"
  else strLower (classsesOrder.getD (npArgmax row) "")

/-- Configuration fixed at `__init__`: which optional collaborators exist and
the constructor parameters that never change afterwards. -/
structure Config where
  robotPresent : Bool
  facialExpressionPresent : Bool
  voiceEnabled : Bool
  german : Bool
  faceDetectionDelta : Nat
deriving DecidableEq

/-- The mutable attributes of the `EmotionRecognition` object.
`deviceOpenCount` counts calls to `VideoDevice.open` so that the claim that the
device is opened only once can be stated; `devicePresent` is whether
`self._device` is not `None`.  The cached classifier outputs store the row
`self._categoricalRecognition[0]` resp. the two raw dimensional scalars. -/
structure State where
  running : Bool
  deviceOpenCount : Nat
  devicePresent : Bool
  categoricalRecognition : Option (List ℚ)
  dimensionalRecognition : Option (List ℚ)
  not_found_counter : Nat
  same_emotion_counter : Nat
  last_exp : String
  mirrorEmotion : Bool
  faceTracking : Bool
  trackingCounter : Nat
  showGUI : Bool
deriving DecidableEq

/-- State right after `__init__`. -/
def initState : State :=
  { running := false, deviceOpenCount := 0, devicePresent := false,
    categoricalRecognition := none, dimensionalRecognition := none,
    not_found_counter := 0, same_emotion_counter := 0, last_exp := "",
    mirrorEmotion := false, faceTracking := false, trackingCounter := 0,
    showGUI := false }

/-- What one invocation of the frame callback observes from the external
collaborators: whether `detectFace` found a face, the centre of the first
face region, the outputs of the two classifiers on the preprocessed crop and
the values drawn by `randint` for the recovery pose. -/
structure FrameObs where
  faceFound : Bool
  faceCenterX : ℚ
  faceCenterY : ℚ
  catScores : List ℚ
  dimScores : List ℚ
  jitterZ : ℤ
  jitterY : ℤ
deriving DecidableEq

/-- Side effects issued to the optional collaborators during one callback. -/
inductive Effect where
  | changeAngle (joint : String) (angle : ℚ) (speed : ℚ)
  | setAngle (joint : String) (angle : ℚ) (speed : ℚ)
  | sendFaceExpression (label : String)
  | say (label : String)
deriving DecidableEq

/-- Horizontal tracking angle, line 228 of the source:
`(640 - facePoints[0].center().x) / 640.0 * 60 - 60 / 2.0`. -/
def angle_z (x : ℚ) : ℚ := (640 - x) / 640 * 60 - 60 / 2

/-- Vertical tracking angle, line 231 of the source:
`(480 - facePoints[0].center().y) / 480.0 * 50 - 50 / 2.0`. -/
def angle_y (y : ℚ) : ℚ := (480 - y) / 480 * 50 - 50 / 2

/-- Modelled from the spec: the horizontal-angle formula exactly as the
specification text writes it, `(frameWidth/2 - faceCenterX)/frameWidth * FOV -
FOV/2`, kept separate so it can be compared with `angle_z` from the source. -/
def specAngle_z (x : ℚ) : ℚ := (640 / 2 - x) / 640 * 60 - 60 / 2

/-- The four emotions that have speech phrase sets (lines 262-335). -/
def speechEmotions : List String := ["happiness", "surprise", "anger", "fear"]

/-- Head-tracking effects of a face-found frame (lines 224-239): issued only
when tracking is enabled and the tracking counter is 0, and only when a robot
was given; the `head_y` command negates the computed vertical angle. -/
def trackingEffects (cfg : Config) (obs : FrameObs) (s : State) : List Effect :=
  if s.faceTracking = true ∧ s.trackingCounter = 0 then
    if cfg.robotPresent = true then
      [Effect.changeAngle "head_z" (angle_z obs.faceCenterX) 0.03,
       Effect.changeAngle "head_y" (-(angle_y obs.faceCenterY)) 0.03]
    else []
  else []

/-- Tracking-counter update on every face-found frame (lines 240-243). -/
def updateTrackingCounter (cfg : Config) (n : Nat) : Nat :=
  if n = cfg.faceDetectionDelta then 0 else n + 1

/-- The mirroring/speech block (lines 251-335), applied after the classifier
results were cached; `lbl` is `self.getHighestMatchingEmotion()` on the fresh
row.  The four per-emotion `if` statements under the voice check are collapsed
into one `say` effect carrying the label, since their guards are mutually
exclusive string equalities. -/
def mirrorStep (cfg : Config) (lbl : String) (s : State) : State × List Effect :=
  if s.mirrorEmotion = true ∧ cfg.facialExpressionPresent = true then
    if s.last_exp ≠ lbl then
      ({ s with same_emotion_counter := 0, last_exp := lbl },
       [Effect.sendFaceExpression lbl])
    else
      ({ s with same_emotion_counter := s.same_emotion_counter + 1 },
       if cfg.voiceEnabled = true ∧ s.same_emotion_counter + 1 = 3 ∧
           lbl ∈ speechEmotions then
         [Effect.say lbl]
       else [])
  else (s, [])

/-- The face-found branch of `_callback` (lines 222-349): reset the not-found
counter, evaluate head tracking, update the tracking counter, cache both
classifier outputs, then run the mirroring block. -/
def faceFoundStep (cfg : Config) (obs : FrameObs) (s : State) :
    State × List Effect :=
  let s1 : State := { s with not_found_counter := 0 }
  let te := trackingEffects cfg obs s1
  let s2 : State :=
    { s1 with trackingCounter := updateTrackingCounter cfg s1.trackingCounter }
  let s3 : State :=
    { s2 with categoricalRecognition := some obs.catScores,
              dimensionalRecognition := some obs.dimScores }
  let m := mirrorStep cfg (highestMatchingEmotion obs.catScores) s3
  (m.1, te ++ m.2)

/-- The no-face branch of `_callback` (lines 350-371): clear both cached
results; while tracking is enabled, bump the not-found counter and, once it
exceeds 50, reset it and (when a robot was given) issue the jittered recovery
pose. -/
def noFaceStep (cfg : Config) (obs : FrameObs) (s : State) :
    State × List Effect :=
  let s1 : State :=
    { s with categoricalRecognition := none, dimensionalRecognition := none }
  if s1.faceTracking = true then
    if s1.not_found_counter + 1 > 50 then
      ({ s1 with not_found_counter := 0 },
       if cfg.robotPresent = true then
         [Effect.setAngle "head_z" ((0 : ℚ) + (obs.jitterZ : ℚ)) 0.01,
          Effect.setAngle "head_y" ((-30 : ℚ) + (obs.jitterY : ℚ)) 0.01]
       else [])
    else ({ s1 with not_found_counter := s1.not_found_counter + 1 }, [])
  else (s1, [])

/-- One invocation of `_callback` on a non-`None` frame. -/
def callback (cfg : Config) (obs : FrameObs) (s : State) : State × List Effect :=
  if obs.faceFound = true then faceFoundStep cfg obs s else noFaceStep cfg obs s

/-- `start(showGUI, faceTracking, mirrorEmotion)` (lines 66-87): a logged
no-op while running, otherwise stores the flags, resets the tracking counter,
creates and opens the device and enters the running state. -/
def start (showGUI faceTracking mirrorEmotion : Bool) (s : State) : State :=
  if s.running = true then s
  else
    { s with mirrorEmotion := mirrorEmotion, faceTracking := faceTracking,
             trackingCounter := 0, devicePresent := true,
             deviceOpenCount := s.deviceOpenCount + 1,
             showGUI := showGUI, running := true }

/-- Warning log of `start` (lines 76-79). -/
def startLogs (s : State) : List String :=
  if s.running = true then
    ["Trying to start emotion recognition while already running"]
  else []

/-- `stop()` (lines 89-102): a logged no-op while not running, otherwise closes
and drops the device, clears both cached results and leaves the running
state. -/
def stop (s : State) : State :=
  if s.running = false then s
  else
    { s with devicePresent := false, categoricalRecognition := none,
             dimensionalRecognition := none, running := false }

/-- Warning log of `stop` (lines 93-96). -/
def stopLogs (s : State) : List String :=
  if s.running = false then
    ["Trying to stop emotion recognition while it is not running"]
  else []

/-- `getDimensionalData` (lines 104-123): a warning and `None` while not
running, an info message and `None` when the last cycle cached no result,
otherwise the arousal/valence labels zipped with the scores scaled by 100. -/
def getDimensionalData (s : State) : Option (List (String × ℚ)) × List String :=
  if s.running = false then
    (none, ["Dimensional data requested while emotion recognition not running"])
  else
    match s.dimensionalRecognition with
    | none => (none, ["No face detected - Dimensional data will be None"])
    | some dims => (some (dimClassesOrder.zip (dims.map (fun x => x * 100))), [])

/-- `getCategoricalData` (lines 125-144).  Note that the source guards on
`self._dimensionalRecognition is None` and then subscripts
`self._categoricalRecognition[0]`; the state where the dimensional cache is
present but the categorical one is absent would raise a `TypeError` in Python,
which the embedding surfaces as an `Except.error`. -/
def getCategoricalData (s : State) :
    Except String (Option (List (String × ℚ))) × List String :=
  if s.running = false then
    (Except.ok none,
     ["Categorical data requested while emotion recognition not running"])
  else
    match s.dimensionalRecognition with
    | none =>
      (Except.ok none, ["No face detected - Categorical data will be None"])
    | some _ =>
      match s.categoricalRecognition with
      | none => (Except.error "TypeError: NoneType is not subscriptable", [])
      | some row => (Except.ok (some (classsesOrder.zip row)), [])

/-- `getHighestMatchingEmotion` (lines 146-180) together with the (empty) list
of messages it logs: the source checks neither `self._running` nor logs
anything; it returns `None` exactly when the categorical cache is absent. -/
def getHighestMatchingEmotionData (s : State) : Option String × List String :=
  match s.categoricalRecognition with
  | some row => (some (highestMatchingEmotion row), [])
  | none => (none, [])

/-- External stimuli driving the object: the public mutators and device
frames.  Frames reach `_callback` only while the device is open, i.e. while
running. -/
inductive Event where
  | start (showGUI faceTracking mirrorEmotion : Bool)
  | stop
  | frame (obs : FrameObs)
deriving DecidableEq

def stepEvent (cfg : Config) (s : State) : Event → State
  | Event.start g t m => start g t m s
  | Event.stop => stop s
  | Event.frame obs => if s.running = true then (callback cfg obs s).1 else s

def runEvents (cfg : Config) (evs : List Event) (s : State) : State :=
  evs.foldl (stepEvent cfg) s

/-- States reachable from `__init__` by a sequence of events. -/
def reachState (cfg : Config) (evs : List Event) : State :=
  runEvents cfg evs initState

/-! Concrete fixtures used by witnesses and counterexamples. -/

/-- No robot, facial-expression collaborator given, voice enabled, delta 10. -/
def cfgMirror : Config := ⟨false, true, true, false, 10⟩

/-- Robot given, no other collaborator, delta 10. -/
def cfgRobot : Config := ⟨true, false, false, false, 10⟩

/-- No optional collaborator at all, delta 10. -/
def cfgNoRobot : Config := ⟨false, false, false, false, 10⟩

/-- A face in the frame centre whose categorical row scores 20 at index 6,
so its label is fear. -/
def obsFear : FrameObs := ⟨true, 320, 240, [0, 0, 0, 0, 0, 0, 20, 0], [0, 0], 0, 0⟩

/-- A face whose categorical row scores 25 at index 4, so its label is anger. -/
def obsAnger : FrameObs := ⟨true, 320, 240, [0, 0, 0, 0, 25, 0, 0, 0], [0, 0], 0, 0⟩

/-- A frame in which no face was detected. -/
def obsNoFace : FrameObs := ⟨false, 0, 0, [], [], 3, -2⟩

/-- Mirror the fear face for four frames with mirroring on (driving the repeat
counter to 3), stop, and start again with mirroring off.  `start` does not
reset `same_emotion_counter`, so the restarted state still carries counter 3
and stored label fear while the mirroring block is disabled. -/
def staleEvents : List Event :=
  [Event.start false false true, Event.frame obsFear, Event.frame obsFear,
   Event.frame obsFear, Event.frame obsFear, Event.stop,
   Event.start false false false]

/-- The state reached by `staleEvents` under `cfgMirror`. -/
def staleState : State := reachState cfgMirror staleEvents

/-- Running state with face tracking on, tracking counter 0, mirroring off. -/
def trackState : State :=
  { initState with running := true, faceTracking := true }

/-- `trackState` with the tracking counter at the default delta 10. -/
def trackStateTen : State := { trackState with trackingCounter := 10 }

/-- Running state with tracking on whose not-found counter already reached
50 (reachable by `start` with tracking and 50 frames without a face). -/
def lostState : State :=
  { initState with running := true, faceTracking := true,
                   not_found_counter := 50 }

/-- Running state with mirroring on, stored label fear, repeat counter 2. -/
def speechState : State :=
  { initState with running := true, mirrorEmotion := true,
                   last_exp := "fear", same_emotion_counter := 2 }

/-- Cache-consistency invariant: the two cached classifier results are absent
or present together, and both absent while not running. -/
def SyncInv (s : State) : Prop :=
  (s.categoricalRecognition = none ↔ s.dimensionalRecognition = none) ∧
  (s.running = false → s.categoricalRecognition = none)

/-- The state of a face-found frame just before the mirroring block runs:
not-found counter cleared, tracking counter updated, classifier outputs
cached. -/
def midState (cfg : Config) (obs : FrameObs) (s : State) : State :=
  { s with not_found_counter := 0,
           trackingCounter := updateTrackingCounter cfg s.trackingCounter,
           categoricalRecognition := some obs.catScores,
           dimensionalRecognition := some obs.dimScores }

/-! Helper lemmas about the pieces of the callback. -/

theorem mirrorStep_fst_fields (cfg : Config) (lbl : String) (s : State) :
    (mirrorStep cfg lbl s).1.running = s.running ∧
    (mirrorStep cfg lbl s).1.categoricalRecognition = s.categoricalRecognition ∧
    (mirrorStep cfg lbl s).1.dimensionalRecognition = s.dimensionalRecognition ∧
    (mirrorStep cfg lbl s).1.not_found_counter = s.not_found_counter ∧
    (mirrorStep cfg lbl s).1.trackingCounter = s.trackingCounter ∧
    (mirrorStep cfg lbl s).1.faceTracking = s.faceTracking := by
  unfold mirrorStep
  split_ifs <;> exact ⟨rfl, rfl, rfl, rfl, rfl, rfl⟩

theorem trackingEffects_no_say (cfg : Config) (obs : FrameObs) (s : State)
    (l : String) : Effect.say l ∉ trackingEffects cfg obs s := by
  unfold trackingEffects
  split_ifs <;> simp

theorem trackingEffects_no_send (cfg : Config) (obs : FrameObs) (s : State)
    (l : String) : Effect.sendFaceExpression l ∉ trackingEffects cfg obs s := by
  unfold trackingEffects
  split_ifs <;> simp

theorem mirrorStep_no_changeAngle (cfg : Config) (lbl : String) (s : State)
    (j : String) (a sp : ℚ) :
    Effect.changeAngle j a sp ∉ (mirrorStep cfg lbl s).2 := by
  unfold mirrorStep
  split_ifs <;> simp

theorem faceFoundStep_caches (cfg : Config) (obs : FrameObs) (s : State) :
    (faceFoundStep cfg obs s).1.categoricalRecognition = some obs.catScores ∧
    (faceFoundStep cfg obs s).1.dimensionalRecognition = some obs.dimScores ∧
    (faceFoundStep cfg obs s).1.running = s.running ∧
    (faceFoundStep cfg obs s).1.not_found_counter = 0 ∧
    (faceFoundStep cfg obs s).1.trackingCounter =
      updateTrackingCounter cfg s.trackingCounter := by
  unfold faceFoundStep
  have h := mirrorStep_fst_fields cfg (highestMatchingEmotion obs.catScores)
  refine ⟨?_, ?_, ?_, ?_, ?_⟩ <;> simp [h _ |>.1, (h _).2.1, (h _).2.2.1,
    (h _).2.2.2.1, (h _).2.2.2.2.1]

theorem noFaceStep_fields (cfg : Config) (obs : FrameObs) (s : State) :
    (noFaceStep cfg obs s).1.categoricalRecognition = none ∧
    (noFaceStep cfg obs s).1.dimensionalRecognition = none ∧
    (noFaceStep cfg obs s).1.running = s.running ∧
    (noFaceStep cfg obs s).1.same_emotion_counter = s.same_emotion_counter ∧
    (noFaceStep cfg obs s).1.last_exp = s.last_exp ∧
    (noFaceStep cfg obs s).1.trackingCounter = s.trackingCounter := by
  simp only [noFaceStep]
  split_ifs <;> exact ⟨rfl, rfl, rfl, rfl, rfl, rfl⟩

theorem callback_running (cfg : Config) (obs : FrameObs) (s : State) :
    (callback cfg obs s).1.running = s.running := by
  unfold callback
  split_ifs
  · exact (faceFoundStep_caches cfg obs s).2.2.1
  · exact (noFaceStep_fields cfg obs s).2.2.1

theorem callback_faceFound (cfg : Config) (obs : FrameObs) (s : State)
    (h : obs.faceFound = true) : callback cfg obs s = faceFoundStep cfg obs s := by
  unfold callback
  rw [if_pos h]

theorem callback_noFace (cfg : Config) (obs : FrameObs) (s : State)
    (h : obs.faceFound = false) : callback cfg obs s = noFaceStep cfg obs s := by
  unfold callback
  rw [if_neg (by rw [h]; exact Bool.false_ne_true)]

/-- `faceFoundStep` written without the intermediate lets: the mirroring block
runs on the state with the not-found counter cleared, the tracking counter
updated and both classifier outputs cached, and the head-tracking effects come
first. -/
theorem faceFoundStep_eq (cfg : Config) (obs : FrameObs) (s : State) :
    faceFoundStep cfg obs s =
      ((mirrorStep cfg (highestMatchingEmotion obs.catScores)
          (midState cfg obs s)).1,
       trackingEffects cfg obs { s with not_found_counter := 0 } ++
         (mirrorStep cfg (highestMatchingEmotion obs.catScores)
           (midState cfg obs s)).2) := rfl

theorem mirrorStep_changed (cfg : Config) (lbl : String) (s : State)
    (hm : s.mirrorEmotion = true) (hf : cfg.facialExpressionPresent = true)
    (hne : lbl ≠ s.last_exp) :
    mirrorStep cfg lbl s =
      ({ s with same_emotion_counter := 0, last_exp := lbl },
       [Effect.sendFaceExpression lbl]) := by
  unfold mirrorStep
  rw [if_pos ⟨hm, hf⟩, if_pos (Ne.symm hne)]

theorem mirrorStep_unchanged (cfg : Config) (lbl : String) (s : State)
    (hm : s.mirrorEmotion = true) (hf : cfg.facialExpressionPresent = true)
    (heq : lbl = s.last_exp) :
    mirrorStep cfg lbl s =
      ({ s with same_emotion_counter := s.same_emotion_counter + 1 },
       if cfg.voiceEnabled = true ∧ s.same_emotion_counter + 1 = 3 ∧
           lbl ∈ speechEmotions then [Effect.say lbl] else []) := by
  unfold mirrorStep
  rw [if_pos ⟨hm, hf⟩, if_neg (by simp [heq])]

theorem mirrorStep_off (cfg : Config) (lbl : String) (s : State)
    (h : s.mirrorEmotion = false ∨ cfg.facialExpressionPresent = false) :
    mirrorStep cfg lbl s = (s, []) := by
  unfold mirrorStep
  rw [if_neg]
  rintro ⟨h1, h2⟩
  cases h with
  | inl hh => rw [hh] at h1; cases h1
  | inr hh => rw [hh] at h2; cases h2

theorem syncInv_initState : SyncInv initState := by
  constructor
  · simp [initState]
  · intro _
    rfl

theorem syncInv_stepEvent (cfg : Config) (s : State) (e : Event)
    (h : SyncInv s) : SyncInv (stepEvent cfg s e) := by
  cases e with
  | start g t m =>
    by_cases hr : s.running = true
    · simpa [stepEvent, start, hr] using h
    · constructor
      · simpa [stepEvent, start, hr] using h.1
      · intro hf
        simp [stepEvent, start, hr] at hf
  | stop =>
    by_cases hr : s.running = false
    · simpa [stepEvent, stop, hr] using h
    · constructor <;> simp [stepEvent, stop, hr]
  | frame obs =>
    by_cases hr : s.running = true
    · by_cases hface : obs.faceFound = true
      · have hc := faceFoundStep_caches cfg obs s
        constructor
        · simp [stepEvent, hr, callback_faceFound cfg obs s hface, hc.1, hc.2.1]
        · intro hf
          simp only [stepEvent, hr, if_pos] at hf
          rw [callback_running, hr] at hf
          exact Bool.noConfusion hf
      · have hface' : obs.faceFound = false := by
          cases hb : obs.faceFound
          · rfl
          · exact absurd hb hface
        have hc := noFaceStep_fields cfg obs s
        constructor
        · simp [stepEvent, hr, callback_noFace cfg obs s hface', hc.1, hc.2.1]
        · intro _
          simpa [stepEvent, hr, callback_noFace cfg obs s hface'] using hc.1
    · simpa [stepEvent, hr] using h

theorem syncInv_runEvents (cfg : Config) (evs : List Event) (s : State)
    (h : SyncInv s) : SyncInv (runEvents cfg evs s) := by
  induction evs generalizing s with
  | nil => exact h
  | cons e evs ih => exact ih (stepEvent cfg s e) (syncInv_stepEvent cfg s e h)


/-! The claims. -/

/-- C1: for every cached categorical score vector, `getHighestMatchingEmotion`
is deterministic (a function of the cached row) and selects the label by the
priority order: score at index 6 above 15 gives fear; else score at index 4
above 20 gives anger; else score at index 3 above 15 gives sadness; else score
at index 3 above 20 gives happiness; else the arg-max label among all classes,
lowercased. -/
theorem c1_highest_matching_priority (s : State) (row : List ℚ)
    (hs : s.categoricalRecognition = some row) (hlen : row.length = 8) :
    (getHighestMatchingEmotionData s).1 = some (highestMatchingEmotion row) ∧
    (row.getD 6 0 > 15 → highestMatchingEmotion row = "fear") ∧
    (row.getD 6 0 ≤ 15 → row.getD 4 0 > 20 →
      highestMatchingEmotion row = "anger") ∧
    (row.getD 6 0 ≤ 15 → row.getD 4 0 ≤ 20 → row.getD 3 0 > 15 →
      highestMatchingEmotion row = "sadness") ∧
    (row.getD 6 0 ≤ 15 → row.getD 4 0 ≤ 20 → row.getD 3 0 ≤ 15 →
      row.getD 3 0 > 20 → highestMatchingEmotion row = "happiness") ∧
    (row.getD 6 0 ≤ 15 → row.getD 4 0 ≤ 20 → row.getD 3 0 ≤ 15 →
      highestMatchingEmotion row = strLower (classsesOrder.getD (npArgmax row) "") ∧
      npArgmax row < 8 ∧
      ∀ i, i < 8 → row.getD i 0 ≤ row.getD (npArgmax row) 0) := by
  have hne : row ≠ [] := by
    intro h
    rw [h] at hlen
    simp at hlen
  refine ⟨by simp [getHighestMatchingEmotionData, hs], ?_, ?_, ?_, ?_, ?_⟩
  · intro h6
    unfold highestMatchingEmotion
    rw [if_pos h6]
  · intro h6 h4
    unfold highestMatchingEmotion
    rw [if_neg (not_lt_of_le h6), if_pos h4]
  · intro h6 h4 h3
    unfold highestMatchingEmotion
    rw [if_neg (not_lt_of_le h6), if_neg (not_lt_of_le h4), if_pos h3]
  · intro h6 h4 h3 h3'
    exact absurd h3' (not_lt_of_le (le_trans h3 (by norm_num)))
  · intro h6 h4 h3
    refine ⟨?_, hlen ▸ npArgmax_lt row hne, ?_⟩
    · unfold highestMatchingEmotion
      rw [if_neg (not_lt_of_le h6), if_neg (not_lt_of_le h4),
        if_neg (not_lt_of_le h3),
        if_neg (not_lt_of_le (le_trans h3 (by norm_num)))]
    · intro i hi
      exact npArgmax_ge row i (hlen ▸ hi)

/-- Witness for C1 at the row `[1, 2, 3, 4, 5, 6, 7, 8]`: all thresholds fail
and the arg-max slot 7 yields the lowercased label contempt. -/
theorem c1_witness :
    highestMatchingEmotion [1, 2, 3, 4, 5, 6, 7, 8] = "contempt" := by
  have h := c1_highest_matching_priority
      { initState with categoricalRecognition := some [1, 2, 3, 4, 5, 6, 7, 8] }
      [1, 2, 3, 4, 5, 6, 7, 8] rfl rfl
  have h5 := (h.2.2.2.2.2 (by decide) (by decide) (by decide)).1
  rw [h5]
  decide

/-- C10: the happiness threshold branch is dead code.  Whenever the fear and
anger thresholds fail and the score at index 3 exceeds 20, it also exceeds 15,
so the sadness branch answers first; consequently a happiness answer can only
come out of the arg-max fallback, with all thresholds failed. -/
theorem c10_happiness_branch_unreachable :
    (∀ row : List ℚ, row.getD 6 0 ≤ 15 → row.getD 4 0 ≤ 20 →
       row.getD 3 0 > 20 →
       row.getD 3 0 > 15 ∧ highestMatchingEmotion row = "sadness") ∧
    (∀ row : List ℚ, highestMatchingEmotion row = "happiness" →
       row.getD 6 0 ≤ 15 ∧ row.getD 4 0 ≤ 20 ∧ row.getD 3 0 ≤ 15 ∧
       strLower (classsesOrder.getD (npArgmax row) "") = "happiness") := by
  constructor
  · intro row h6 h4 h3
    have h3' : row.getD 3 0 > 15 := lt_of_le_of_lt (by norm_num) h3
    refine ⟨h3', ?_⟩
    unfold highestMatchingEmotion
    rw [if_neg (not_lt_of_le h6), if_neg (not_lt_of_le h4), if_pos h3']
  · intro row hh
    unfold highestMatchingEmotion at hh
    split_ifs at hh with h6 h4 h3 h3'
    · exact absurd hh (by decide)
    · exact absurd hh (by decide)
    · exact absurd hh (by decide)
    · exact absurd (lt_trans (by norm_num) h3') h3
    · exact ⟨le_of_not_lt h6, le_of_not_lt h4, le_of_not_lt h3, hh⟩

/-- Witness for C10 at the row `[0, 0, 0, 25, 0, 0, 0, 0]`: index 3 scores 25,
above both 20 and 15, and the function answers sadness. -/
theorem c10_witness :
    highestMatchingEmotion [0, 0, 0, 25, 0, 0, 0, 0] = "sadness" :=
  (c10_happiness_branch_unreachable.1 [0, 0, 0, 25, 0, 0, 0, 0]
    (by decide) (by decide) (by decide)).2

/-- C2, counterexample: the mirroring block (and with it every transition of
the repeat counter) is guarded by `self._mirrorEmotion and
self._facialExpression is not None`.  In the reachable state `staleState`
(mirroring now off, stored label fear, counter 3), a processed face-present
frame whose label anger differs from the stored label leaves the counter at 3
instead of resetting it, does not update the stored label and forwards
nothing, refuting the claim as stated for all face-present frames. -/
theorem c2_counterexample :
    staleState.running = true ∧
    highestMatchingEmotion obsAnger.catScores = "anger" ∧
    staleState.last_exp = "fear" ∧
    staleState.same_emotion_counter = 3 ∧
    (callback cfgMirror obsAnger staleState).1.same_emotion_counter = 3 ∧
    (callback cfgMirror obsAnger staleState).1.last_exp = "fear" ∧
    (callback cfgMirror obsAnger staleState).2 = [] := by decide

/-- C2, amended: while expression mirroring is enabled and a facial-expression
collaborator is configured, on every processed face-present frame the repeat
counter resets to 0 exactly when the highest-matching label differs from the
stored label (the stored label is then updated and forwarded), and increments
by exactly 1 when the label is unchanged; on face-present frames without that
configuration, and on frames without a face, the counter and stored label do
not change. -/
theorem c2_amended :
    (∀ (cfg : Config) (obs : FrameObs) (s : State), obs.faceFound = true →
       s.mirrorEmotion = true → cfg.facialExpressionPresent = true →
       (highestMatchingEmotion obs.catScores ≠ s.last_exp →
          (callback cfg obs s).1.same_emotion_counter = 0 ∧
          (callback cfg obs s).1.last_exp = highestMatchingEmotion obs.catScores ∧
          Effect.sendFaceExpression (highestMatchingEmotion obs.catScores) ∈
            (callback cfg obs s).2) ∧
       (highestMatchingEmotion obs.catScores = s.last_exp →
          (callback cfg obs s).1.same_emotion_counter =
            s.same_emotion_counter + 1 ∧
          (callback cfg obs s).1.last_exp = s.last_exp)) ∧
    (∀ (cfg : Config) (obs : FrameObs) (s : State), obs.faceFound = true →
       (s.mirrorEmotion = false ∨ cfg.facialExpressionPresent = false) →
       (callback cfg obs s).1.same_emotion_counter = s.same_emotion_counter ∧
       (callback cfg obs s).1.last_exp = s.last_exp) ∧
    (∀ (cfg : Config) (obs : FrameObs) (s : State), obs.faceFound = false →
       (callback cfg obs s).1.same_emotion_counter = s.same_emotion_counter ∧
       (callback cfg obs s).1.last_exp = s.last_exp) := by
  refine ⟨?_, ?_, ?_⟩
  · intro cfg obs s hface hm hf
    rw [callback_faceFound cfg obs s hface, faceFoundStep_eq]
    constructor
    · intro hne
      rw [mirrorStep_changed cfg _ (midState cfg obs s) hm hf hne]
      exact ⟨rfl, rfl, by simp⟩
    · intro heq
      rw [mirrorStep_unchanged cfg _ (midState cfg obs s) hm hf heq]
      exact ⟨rfl, rfl⟩
  · intro cfg obs s hface hoff
    rw [callback_faceFound cfg obs s hface, faceFoundStep_eq,
      mirrorStep_off cfg (highestMatchingEmotion obs.catScores)
        (midState cfg obs s) hoff]
    exact ⟨rfl, rfl⟩
  · intro cfg obs s hface
    rw [callback_noFace cfg obs s hface]
    exact ⟨(noFaceStep_fields cfg obs s).2.2.2.1,
      (noFaceStep_fields cfg obs s).2.2.2.2.1⟩

/-- Witness for the amended C2: in `speechState` (mirroring on, stored label
fear) a frame labelled anger resets the counter, stores anger and forwards
it. -/
theorem c2_witness :
    (callback cfgMirror obsAnger speechState).1.same_emotion_counter = 0 ∧
    (callback cfgMirror obsAnger speechState).1.last_exp = "anger" ∧
    Effect.sendFaceExpression "anger" ∈
      (callback cfgMirror obsAnger speechState).2 := by
  have hl : highestMatchingEmotion obsAnger.catScores = "anger" := by decide
  have h := (c2_amended.1 cfgMirror obsAnger speechState rfl rfl rfl).1
      (by rw [hl]; decide)
  refine ⟨h.1, ?_, ?_⟩
  · rw [h.2.1, hl]
  · have hmem := h.2.2
    rwa [hl] at hmem

/-- C3, counterexample: in the reachable state `staleState` (mirroring now
off after a restart, which does not reset the counter) the repeat counter
equals exactly 3, voice is enabled and the stored label fear is in the speech
set, the frame label is unchanged, and yet no speech line is triggered: the
trigger also requires the mirroring block to be active. -/
theorem c3_counterexample :
    cfgMirror.voiceEnabled = true ∧
    staleState.running = true ∧
    staleState.same_emotion_counter = 3 ∧
    staleState.last_exp ∈ speechEmotions ∧
    highestMatchingEmotion obsFear.catScores = staleState.last_exp ∧
    (callback cfgMirror obsFear staleState).1.same_emotion_counter = 3 ∧
    (callback cfgMirror obsFear staleState).2 = [] := by decide

/-- C3, amended: on face-present frames processed while expression mirroring
is enabled and a facial-expression collaborator is configured, a speech line
is triggered if and only if the repeat counter equals exactly 3 on that frame,
voice output is enabled and the stored label is one of happiness, surprise,
anger, fear; in particular it never fires at counter values 4, 5, ... of a
streak and labels outside that set produce no speech. -/
theorem c3_amended (cfg : Config) (obs : FrameObs) (s : State)
    (hface : obs.faceFound = true) (hm : s.mirrorEmotion = true)
    (hf : cfg.facialExpressionPresent = true) :
    ((∃ l, Effect.say l ∈ (callback cfg obs s).2) ↔
      (cfg.voiceEnabled = true ∧
       (callback cfg obs s).1.same_emotion_counter = 3 ∧
       s.last_exp ∈ speechEmotions)) := by
  rw [callback_faceFound cfg obs s hface, faceFoundStep_eq]
  by_cases hl : highestMatchingEmotion obs.catScores = s.last_exp
  · rw [mirrorStep_unchanged cfg _ (midState cfg obs s) hm hf hl]
    by_cases hC : cfg.voiceEnabled = true ∧
        (midState cfg obs s).same_emotion_counter + 1 = 3 ∧
        highestMatchingEmotion obs.catScores ∈ speechEmotions
    · rw [if_pos hC]
      constructor
      · intro _
        refine ⟨hC.1, hC.2.1, ?_⟩
        rw [← hl]
        exact hC.2.2
      · intro _
        exact ⟨highestMatchingEmotion obs.catScores, by simp⟩
    · rw [if_neg hC]
      constructor
      · rintro ⟨l, hmem⟩
        rw [List.mem_append] at hmem
        rcases hmem with hmem | hmem
        · exact absurd hmem (trackingEffects_no_say _ _ _ _)
        · simp at hmem
      · rintro ⟨hv, hc, hmem⟩
        refine absurd ⟨hv, hc, ?_⟩ hC
        rw [hl]
        exact hmem
  · rw [mirrorStep_changed cfg _ (midState cfg obs s) hm hf hl]
    constructor
    · rintro ⟨l, hmem⟩
      rw [List.mem_append] at hmem
      rcases hmem with hmem | hmem
      · exact absurd hmem (trackingEffects_no_say _ _ _ _)
      · simp at hmem
    · rintro ⟨hv, hc, hmem⟩
      exact absurd hc (by simp)

/-- Witness for the amended C3: in `speechState` (counter 2, stored label
fear, voice on) a third consecutive fear frame triggers speech. -/
theorem c3_witness :
    ∃ l, Effect.say l ∈ (callback cfgMirror obsFear speechState).2 := by
  refine (c3_amended cfgMirror obsFear speechState rfl rfl rfl).mpr
    ⟨rfl, by decide, by decide⟩

/-- C4, counterexample: the recovery pose is issued only when a robot was
given on initialisation.  In the reachable state `lostState` (tracking on,
not-found counter 50) a further no-face frame pushes the counter above 50 and
resets it, but with no robot configured no `setAngle` command is issued,
refuting the claim that the command is issued exactly when the counter
exceeds 50. -/
theorem c4_counterexample :
    lostState.faceTracking = true ∧
    lostState.not_found_counter + 1 > 50 ∧
    (callback cfgNoRobot obsNoFace lostState).1.not_found_counter = 0 ∧
    (callback cfgNoRobot obsNoFace lostState).2 = [] := by decide

/-- C4, amended: while face tracking is enabled the not-found counter
increments by 1 on every no-face frame as long as it stays at most 50, resets
to 0 on every face-found frame, and on the no-face frame where it would exceed
50 it resets to 0 and, exactly when a robot is configured, the recovery pose
commands `setAngle head_z (0 + jitter)` and `setAngle head_y (-30 + jitter)`
at speed 0.01 are issued (with the jitters drawn from `[-15, 15]` resp.
`[-10, 10]`, keeping the issued angles in `[-15, 15]` resp. `[-40, -20]`). -/
theorem c4_amended :
    (∀ (cfg : Config) (obs : FrameObs) (s : State), obs.faceFound = false →
       s.faceTracking = true → s.not_found_counter + 1 ≤ 50 →
       (callback cfg obs s).1.not_found_counter = s.not_found_counter + 1 ∧
       (callback cfg obs s).2 = []) ∧
    (∀ (cfg : Config) (obs : FrameObs) (s : State), obs.faceFound = false →
       s.faceTracking = true → s.not_found_counter + 1 > 50 →
       (callback cfg obs s).1.not_found_counter = 0 ∧
       (cfg.robotPresent = true →
         (callback cfg obs s).2 =
           [Effect.setAngle "head_z" ((0 : ℚ) + (obs.jitterZ : ℚ)) 0.01,
            Effect.setAngle "head_y" ((-30 : ℚ) + (obs.jitterY : ℚ)) 0.01]) ∧
       (cfg.robotPresent = false → (callback cfg obs s).2 = [])) ∧
    (∀ (cfg : Config) (obs : FrameObs) (s : State), obs.faceFound = true →
       (callback cfg obs s).1.not_found_counter = 0) ∧
    (∀ z y : ℤ, -15 ≤ z → z ≤ 15 → -10 ≤ y → y ≤ 10 →
       -15 ≤ (0 : ℚ) + (z : ℚ) ∧ (0 : ℚ) + (z : ℚ) ≤ 15 ∧
       -40 ≤ (-30 : ℚ) + (y : ℚ) ∧ (-30 : ℚ) + (y : ℚ) ≤ -20) := by
  refine ⟨?_, ?_, ?_, ?_⟩
  · intro cfg obs s hface ht hle
    rw [callback_noFace cfg obs s hface]
    simp only [noFaceStep]
    rw [if_pos ht, if_neg (Nat.not_lt.mpr hle)]
    exact ⟨rfl, rfl⟩
  · intro cfg obs s hface ht hgt
    rw [callback_noFace cfg obs s hface]
    simp only [noFaceStep]
    rw [if_pos ht, if_pos hgt]
    refine ⟨rfl, ?_, ?_⟩
    · intro hr
      rw [if_pos hr]
    · intro hr
      rw [if_neg (by simp [hr])]
  · intro cfg obs s hface
    rw [callback_faceFound cfg obs s hface]
    exact (faceFoundStep_caches cfg obs s).2.2.2.1
  · intro z y h1 h2 h3 h4
    have hz1 : ((-15 : ℚ)) ≤ (z : ℚ) := by exact_mod_cast h1
    have hz2 : ((z : ℚ)) ≤ 15 := by exact_mod_cast h2
    have hy1 : ((-10 : ℚ)) ≤ (y : ℚ) := by exact_mod_cast h3
    have hy2 : ((y : ℚ)) ≤ 10 := by exact_mod_cast h4
    exact ⟨by linarith, by linarith, by linarith, by linarith⟩

/-- Witness for the amended C4: with a robot configured, the no-face frame
that pushes the counter of `lostState` past 50 issues the two jittered
recovery commands and resets the counter. -/
theorem c4_witness :
    (callback cfgRobot obsNoFace lostState).1.not_found_counter = 0 ∧
    (callback cfgRobot obsNoFace lostState).2 =
      [Effect.setAngle "head_z" ((0 : ℚ) + (obsNoFace.jitterZ : ℚ)) 0.01,
       Effect.setAngle "head_y" ((-30 : ℚ) + (obsNoFace.jitterY : ℚ)) 0.01] := by
  have h := c4_amended.2.1 cfgRobot obsNoFace lostState rfl rfl (by decide)
  exact ⟨h.1, h.2.1 rfl⟩

/-- C5, counterexample: the claim computes the horizontal angle from
`(frameWidth/2 - faceCenterX)`, but the source uses `(frameWidth -
faceCenterX)`.  For a face at the frame centre `x = 320` the source issues a
head_z angle of 0 while the claimed formula yields -30, and no command with
the claimed angle is issued. -/
theorem c5_counterexample :
    (callback cfgRobot obsFear trackState).2 =
      [Effect.changeAngle "head_z" 0 0.03, Effect.changeAngle "head_y" 0 0.03] ∧
    specAngle_z obsFear.faceCenterX = -30 ∧
    Effect.changeAngle "head_z" (specAngle_z obsFear.faceCenterX) 0.03 ∉
      (callback cfgRobot obsFear trackState).2 := by
  have hcb : (callback cfgRobot obsFear trackState).2 =
      [Effect.changeAngle "head_z" (angle_z obsFear.faceCenterX) 0.03,
       Effect.changeAngle "head_y" (-(angle_y obsFear.faceCenterY)) 0.03] := rfl
  have hz : angle_z obsFear.faceCenterX = 0 := by
    show angle_z 320 = 0
    norm_num [angle_z]
  have hy : -(angle_y obsFear.faceCenterY) = 0 := by
    show -(angle_y 240) = 0
    norm_num [angle_y]
  have hspec : specAngle_z obsFear.faceCenterX = -30 := by
    show specAngle_z 320 = -30
    norm_num [specAngle_z]
  refine ⟨by rw [hcb, hz, hy], hspec, ?_⟩
  rw [hcb, hz, hy, hspec]
  decide

/-- C5, amended: on every tracking-eligible face-found frame (tracking
enabled, tracking counter 0, robot configured) the issued horizontal head
angle equals `(frameWidth - faceCenterX)/frameWidth * FOV - FOV/2` with FOV 60
and width 640, the vertical angle is computed analogously with FOV 50 and
height 480 and issued negated for head_y, and both commands use speed 0.03. -/
theorem c5_amended (cfg : Config) (obs : FrameObs) (s : State)
    (hface : obs.faceFound = true) (ht : s.faceTracking = true)
    (hc : s.trackingCounter = 0) (hr : cfg.robotPresent = true) :
    Effect.changeAngle "head_z"
        ((640 - obs.faceCenterX) / 640 * 60 - 60 / 2) 0.03
      ∈ (callback cfg obs s).2 ∧
    Effect.changeAngle "head_y"
        (-((480 - obs.faceCenterY) / 480 * 50 - 50 / 2)) 0.03
      ∈ (callback cfg obs s).2 := by
  rw [callback_faceFound cfg obs s hface, faceFoundStep_eq]
  have hte : trackingEffects cfg obs { s with not_found_counter := 0 } =
      [Effect.changeAngle "head_z" (angle_z obs.faceCenterX) 0.03,
       Effect.changeAngle "head_y" (-(angle_y obs.faceCenterY)) 0.03] := by
    unfold trackingEffects
    rw [if_pos ⟨ht, hc⟩, if_pos hr]
  constructor
  · rw [hte]
    simp [angle_z]
  · rw [hte]
    simp [angle_y]

/-- Witness for the amended C5 at the centred fear face. -/
theorem c5_witness :
    Effect.changeAngle "head_z"
        ((640 - obsFear.faceCenterX) / 640 * 60 - 60 / 2) 0.03
      ∈ (callback cfgRobot obsFear trackState).2 :=
  (c5_amended cfgRobot obsFear trackState rfl rfl rfl rfl).1

/-- C6, counterexample: the head-tracking command is issued on face-found
frames where the tracking counter is 0, not when it reaches the delta: with
delta 10, a frame at counter 0 issues a command although the counter has not
reached the delta, and the frame at counter 10 issues none (the counter only
resets there), refuting both directions of the claim. -/
theorem c6_counterexample :
    (cfgRobot.faceDetectionDelta = 10 ∧ trackState.trackingCounter = 0 ∧
     (∃ a sp, Effect.changeAngle "head_z" a sp ∈
        (callback cfgRobot obsFear trackState).2)) ∧
    (trackStateTen.trackingCounter = cfgRobot.faceDetectionDelta ∧
     (callback cfgRobot obsFear trackStateTen).2 = [] ∧
     (callback cfgRobot obsFear trackStateTen).1.trackingCounter = 0) := by
  have hcb : (callback cfgRobot obsFear trackState).2 =
      [Effect.changeAngle "head_z" (angle_z obsFear.faceCenterX) 0.03,
       Effect.changeAngle "head_y" (-(angle_y obsFear.faceCenterY)) 0.03] := rfl
  constructor
  · exact ⟨rfl, rfl, angle_z obsFear.faceCenterX, 0.03, by rw [hcb]; simp⟩
  · refine ⟨rfl, rfl, ?_⟩
    rw [callback_faceFound cfgRobot obsFear trackStateTen rfl,
      (faceFoundStep_caches cfgRobot obsFear trackStateTen).2.2.2.2]
    decide

/-- C6, amended: on face-found frames a head-tracking command is issued
exactly when tracking is enabled, the tracking counter is 0 and a robot is
configured; afterwards the counter resets to 0 if it equals the configured
delta and increments by 1 otherwise (so with delta N the tracking re-evaluates
every N+1 face-found frames); no-face frames leave the counter unchanged. -/
theorem c6_amended :
    (∀ (cfg : Config) (obs : FrameObs) (s : State), obs.faceFound = true →
       ((∃ a sp, Effect.changeAngle "head_z" a sp ∈ (callback cfg obs s).2) ↔
        (s.faceTracking = true ∧ s.trackingCounter = 0 ∧
         cfg.robotPresent = true))) ∧
    (∀ (cfg : Config) (obs : FrameObs) (s : State), obs.faceFound = true →
       (callback cfg obs s).1.trackingCounter =
         (if s.trackingCounter = cfg.faceDetectionDelta then 0
          else s.trackingCounter + 1)) ∧
    (∀ (cfg : Config) (obs : FrameObs) (s : State), obs.faceFound = false →
       (callback cfg obs s).1.trackingCounter = s.trackingCounter) := by
  refine ⟨?_, ?_, ?_⟩
  · intro cfg obs s hface
    rw [callback_faceFound cfg obs s hface, faceFoundStep_eq]
    constructor
    · rintro ⟨a, sp, hmem⟩
      rw [List.mem_append] at hmem
      rcases hmem with hmem | hmem
      · unfold trackingEffects at hmem
        split_ifs at hmem with h1 h2
        · exact ⟨h1.1, h1.2, h2⟩
        · simp at hmem
        · simp at hmem
      · exact absurd hmem (mirrorStep_no_changeAngle _ _ _ _ _ _)
    · rintro ⟨ht, hc, hr⟩
      refine ⟨angle_z obs.faceCenterX, 0.03, ?_⟩
      rw [List.mem_append]
      left
      unfold trackingEffects
      rw [if_pos ⟨ht, hc⟩, if_pos hr]
      simp
  · intro cfg obs s hface
    rw [callback_faceFound cfg obs s hface,
      (faceFoundStep_caches cfg obs s).2.2.2.2]
    rfl
  · intro cfg obs s hface
    rw [callback_noFace cfg obs s hface]
    exact (noFaceStep_fields cfg obs s).2.2.2.2.2

/-- Witness for the amended C6: at counter 0 with tracking and robot a
command is issued. -/
theorem c6_witness :
    ∃ a sp, Effect.changeAngle "head_z" a sp ∈
      (callback cfgRobot obsFear trackState).2 :=
  (c6_amended.1 cfgRobot obsFear trackState rfl).mpr ⟨rfl, rfl, rfl⟩

/-- C7, counterexample: `getHighestMatchingEmotion` neither checks
`self._running` nor logs anything; called before `start` it returns `None`
with an empty log, refuting the claim that all three queries return an absent
result together with a logged message. -/
theorem c7_counterexample :
    initState.running = false ∧
    getHighestMatchingEmotionData initState = (none, []) := by decide

/-- C7, amended: on every reachable state, `getDimensionalData` and
`getCategoricalData` return `None` together with a logged message when not
running or when the last cycle detected no face, while
`getHighestMatchingEmotion` returns `None` in those states without logging;
none of the three raises; otherwise `getDimensionalData` returns the two
arousal/valence percentage scores and `getCategoricalData` the per-class
scores keyed by the fixed ordered label set. -/
theorem c7_amended (cfg : Config) (evs : List Event) :
    ((reachState cfg evs).running = false →
       getDimensionalData (reachState cfg evs) =
         (none,
          ["Dimensional data requested while emotion recognition not running"]) ∧
       getCategoricalData (reachState cfg evs) =
         (Except.ok none,
          ["Categorical data requested while emotion recognition not running"]) ∧
       getHighestMatchingEmotionData (reachState cfg evs) = (none, [])) ∧
    ((reachState cfg evs).running = true →
     (reachState cfg evs).dimensionalRecognition = none →
       getDimensionalData (reachState cfg evs) =
         (none, ["No face detected - Dimensional data will be None"]) ∧
       getCategoricalData (reachState cfg evs) =
         (Except.ok none, ["No face detected - Categorical data will be None"]) ∧
       getHighestMatchingEmotionData (reachState cfg evs) = (none, [])) ∧
    (∀ e, (getCategoricalData (reachState cfg evs)).1 ≠ Except.error e) ∧
    (∀ dims, (reachState cfg evs).dimensionalRecognition = some dims →
       (getDimensionalData (reachState cfg evs)).1 =
         some (dimClassesOrder.zip (dims.map (fun x => x * 100))) ∧
       ∃ row, (reachState cfg evs).categoricalRecognition = some row ∧
         (getCategoricalData (reachState cfg evs)).1 =
           Except.ok (some (classsesOrder.zip row)) ∧
         (getHighestMatchingEmotionData (reachState cfg evs)).1 =
           some (highestMatchingEmotion row)) := by
  have hinv : SyncInv (reachState cfg evs) :=
    syncInv_runEvents cfg evs initState syncInv_initState
  refine ⟨?_, ?_, ?_, ?_⟩
  · intro hr
    have hcat := hinv.2 hr
    refine ⟨?_, ?_, ?_⟩
    · unfold getDimensionalData
      rw [if_pos hr]
    · unfold getCategoricalData
      rw [if_pos hr]
    · unfold getHighestMatchingEmotionData
      rw [hcat]
  · intro hr hdim
    have hcat := hinv.1.mpr hdim
    refine ⟨?_, ?_, ?_⟩
    · unfold getDimensionalData
      rw [if_neg (by simp [hr]), hdim]
    · unfold getCategoricalData
      rw [if_neg (by simp [hr]), hdim]
    · unfold getHighestMatchingEmotionData
      rw [hcat]
  · intro e
    cases hr : (reachState cfg evs).running with
    | false =>
      unfold getCategoricalData
      rw [if_pos hr]
      simp
    | true =>
      cases hdim : (reachState cfg evs).dimensionalRecognition with
      | none =>
        unfold getCategoricalData
        rw [if_neg (by simp [hr]), hdim]
        simp
      | some dims =>
        have hcatne : (reachState cfg evs).categoricalRecognition ≠ none := by
          intro hcat
          rw [hinv.1.mp hcat] at hdim
          cases hdim
        cases hcatv : (reachState cfg evs).categoricalRecognition with
        | none => exact absurd hcatv hcatne
        | some row =>
          unfold getCategoricalData
          rw [if_neg (by simp [hr]), hdim, hcatv]
          simp
  · intro dims hdims
    have hr : (reachState cfg evs).running = true := by
      cases hrr : (reachState cfg evs).running with
      | false =>
        rw [hinv.1.mp (hinv.2 hrr)] at hdims
        cases hdims
      | true => rfl
    have hcatne : (reachState cfg evs).categoricalRecognition ≠ none := by
      intro hcat
      rw [hinv.1.mp hcat] at hdims
      cases hdims
    obtain ⟨row, hrow⟩ :
        ∃ row, (reachState cfg evs).categoricalRecognition = some row := by
      cases hcatv : (reachState cfg evs).categoricalRecognition with
      | none => exact absurd hcatv hcatne
      | some r => exact ⟨r, rfl⟩
    refine ⟨?_, row, hrow, ?_, ?_⟩
    · unfold getDimensionalData
      rw [if_neg (by simp [hr]), hdims]
    · unfold getCategoricalData
      rw [if_neg (by simp [hr]), hdims, hrow]
    · unfold getHighestMatchingEmotionData
      rw [hrow]

/-- Witness for the amended C7 at the freshly initialised state. -/
theorem c7_witness :
    getDimensionalData initState =
      (none,
       ["Dimensional data requested while emotion recognition not running"]) ∧
    getCategoricalData initState =
      (Except.ok none,
       ["Categorical data requested while emotion recognition not running"]) ∧
    getHighestMatchingEmotionData initState = (none, []) :=
  (c7_amended cfgNoRobot []).1 rfl

/-- C8: `start` while already running is a logged no-op that changes nothing
and does not open the device again (two consecutive `start` calls open it
exactly once), and `stop` while not running is a logged no-op; in the
embedding both transitions are total functions, so neither misuse raises. -/
theorem c8_start_stop_misuse (s1 s2 : State)
    (a b c a2 b2 c2 a3 b3 c3 : Bool)
    (h1 : s1.running = true) (h2 : s2.running = false) :
    start a b c s1 = s1 ∧ startLogs s1 ≠ [] ∧
    stop s2 = s2 ∧ stopLogs s2 ≠ [] ∧
    (start a2 b2 c2 (start a3 b3 c3 s2)).deviceOpenCount =
      s2.deviceOpenCount + 1 := by
  refine ⟨?_, ?_, ?_, ?_, ?_⟩
  · unfold start
    rw [if_pos h1]
  · unfold startLogs
    rw [if_pos h1]
    simp
  · unfold stop
    rw [if_pos h2]
  · unfold stopLogs
    rw [if_pos h2]
    simp
  · have hinner : start a3 b3 c3 s2 =
        { s2 with mirrorEmotion := c3, faceTracking := b3, trackingCounter := 0,
                  devicePresent := true,
                  deviceOpenCount := s2.deviceOpenCount + 1,
                  showGUI := a3, running := true } := by
      unfold start
      rw [if_neg (by simp [h2])]
    rw [hinner]
    unfold start
    rw [if_pos rfl]

/-- Witness for C8: a second `start` right after the first is a no-op and the
open count rises from 0 to exactly 1. -/
theorem c8_witness :
    start true true true speechState = speechState ∧
    stop initState = initState ∧
    (start true false false (start false true true initState)).deviceOpenCount =
      initState.deviceOpenCount + 1 := by
  have h := c8_start_stop_misuse speechState initState
      true true true true false false false true true rfl rfl
  exact ⟨h.1, h.2.2.1, h.2.2.2.2⟩

/-- C9: on every reachable state the cached categorical and dimensional
results are both absent or both present together: initialisation, the
face-found callback branch, the no-face callback branch and `stop` each set
both in the same step, so no reachable state holds exactly one of them. -/
theorem c9_caches_in_sync (cfg : Config) (evs : List Event) :
    ((reachState cfg evs).categoricalRecognition = none ↔
     (reachState cfg evs).dimensionalRecognition = none) :=
  (syncInv_runEvents cfg evs initState syncInv_initState).1

end ER
